import Mathlib

/-!
Verification of the exponential-backoff crate (src/lib.rs, src/into_iter.rs).

Modelling conventions:
* `std::time::Duration` is modelled as its total number of nanoseconds, a
  `Nat` bounded by `durMAX` (the value of `Duration::MAX`).  All `Duration`
  arithmetic used by the crate (`saturating_mul` by a `u32`, division by a
  `u32`, `saturating_add`, `saturating_sub`, `clamp`) is exact nanosecond
  arithmetic in Rust, so the `Nat` operations below are exact models.
* `u32` values are `Nat`s; the saturating `u32` operations clamp at
  `u32MAX`.
* The `jitter` field is an `f32` in Rust; every finite `f32` value is a
  rational number, so the field is modelled as a `Rat` and the cast
  `(jitter * 100f32) as u32` as exact rational multiplication followed by
  truncation toward zero with saturation at `0` and `u32MAX` (truncation
  toward zero on the values the crate stores, all in `[0, 1]`, agrees with
  the `f32` computation: e.g. `0.3f32 * 100f32` rounds to `30.000002`, cast
  `30`).  The default literal `0.3f32` is modelled as `3/10`; its exact
  binary value differs from `3/10` by less than `2^-24` and both produce
  jitter factor `30`.
* The random source: `fastrand::Rng` is freshly seeded per iterator and its
  method `u32(lo..hi)` returns an arbitrary value in `[lo, hi)`, panicking
  when the range is empty.  It is modelled as an infinite tape
  `tape : Nat -> Nat` of draws together with a position; a call with a
  non-empty range `[0, m)` consumes one tape cell and returns its value
  reduced mod `m` (every value of the range is reached by some tape), and a
  call with an empty range is a panic.  Quantifying over all tapes covers
  all possible random behaviour.
* Panics are modelled by `Except String`: `.error` is a panic, `.ok` a
  normal return.
-/

/-- Value of `u32::MAX`. -/
def u32MAX : Nat := 2 ^ 32 - 1

/-- Total nanoseconds of `std::time::Duration::MAX`
(`u64::MAX` seconds plus `999_999_999` nanoseconds). -/
def durMAX : Nat := (2 ^ 64 - 1) * 10 ^ 9 + (10 ^ 9 - 1)

/-- Nanoseconds of `Duration::from_millis`. -/
def durFromMillis (n : Nat) : Nat := n * 10 ^ 6

/-- Nanoseconds of `Duration::from_secs`. -/
def durFromSecs (n : Nat) : Nat := n * 10 ^ 9

/-- Model of `u32::saturating_add`. -/
def u32SatAdd (a b : Nat) : Nat := Nat.min (a + b) u32MAX

/-- Model of `u32::saturating_pow`. -/
def u32SatPow (base exp : Nat) : Nat := Nat.min (base ^ exp) u32MAX

/-- Model of `Duration::saturating_mul` by a `u32`. -/
def durSatMul (d k : Nat) : Nat := Nat.min (d * k) durMAX

/-- Model of `Duration::saturating_add`. -/
def durSatAdd (a b : Nat) : Nat := Nat.min (a + b) durMAX

/-- Model of `Duration::saturating_sub` (`Nat` subtraction already
truncates at zero). -/
def durSatSub (a b : Nat) : Nat := a - b

/-- Model of the cast `(j * 100f32) as u32`: exact rational multiplication
by 100, truncated toward zero (negative values cast to 0) and saturated at
`u32MAX`, matching the saturating semantics of Rust float-to-int casts. -/
def jitterFactor (j : Rat) : Nat :=
  Nat.min (j.num.toNat * 100 / j.den) u32MAX

/-- The `Backoff` struct of src/lib.rs.  The attempts field is called
`max_attempts` in src/lib.rs; src/into_iter.rs refers to the same field
under its older name `retries`. -/
structure Backoff where
  max_attempts : Nat
  min : Nat
  max : Nat
  jitter : Rat
  factor : Nat
deriving DecidableEq, Repr

/-- Model of `Backoff::new(max_attempts, min, max)`: an omitted `max`
(`None`) becomes `Duration::MAX`, jitter defaults to `0.3` and the growth
factor to `2`. -/
def Backoff.new (max_attempts min : Nat) (max : Option Nat) : Backoff :=
  { max_attempts := max_attempts
    min := min
    max := max.getD durMAX
    jitter := mkRat 3 10
    factor := 2 }

/-- Model of the `Default` impl for `Backoff`. -/
def Backoff.default : Backoff :=
  { max_attempts := 3
    min := durFromMillis 100
    max := durFromSecs 10
    jitter := mkRat 3 10
    factor := 2 }

/-- Model of `Backoff::set_min`. -/
def Backoff.set_min (b : Backoff) (v : Nat) : Backoff := { b with min := v }

/-- Model of `Backoff::set_max`. -/
def Backoff.set_max (b : Backoff) (v : Nat) : Backoff := { b with max := v }

/-- Model of `Backoff::set_max_attempts`. -/
def Backoff.set_max_attempts (b : Backoff) (v : Nat) : Backoff :=
  { b with max_attempts := v }

/-- Model of `Backoff::set_jitter`: the `assert!` panics (`.error`) unless
the value lies in `[0, 1]`; on success the field is stored unchanged. -/
def Backoff.set_jitter (b : Backoff) (v : Rat) : Except String Backoff :=
  if 0 ≤ v ∧ v ≤ 1 then .ok { b with jitter := v }
  else .error "jitter must be between 0 and 1."

/-- Model of `Backoff::set_factor`. -/
def Backoff.set_factor (b : Backoff) (v : Nat) : Backoff :=
  { b with factor := v }

/-- The `IntoIter` struct of src/into_iter.rs.  The `rng: Rng` field
(freshly seeded per iterator) is externalised: `next` below takes the
random tape and the current tape position as explicit arguments. -/
structure IntoIter where
  inner : Backoff
  retry_count : Nat
deriving DecidableEq, Repr

/-- Model of `IntoIter::with_count`. -/
def IntoIter.with_count (inner : Backoff) (retry_count : Nat) : IntoIter :=
  { inner := inner, retry_count := retry_count }

/-- Model of `IntoIter::new`. -/
def IntoIter.new (inner : Backoff) : IntoIter := IntoIter.with_count inner 0

/-- Model of `Backoff::iter`: clones the configuration into a fresh
iterator (cloning a plain-data struct yields an equal value). -/
def Backoff.iter (b : Backoff) : IntoIter := IntoIter.new b

/-- Model of the `IntoIterator` impl for borrowed `&Backoff`: clones. -/
def Backoff.into_iter_ref (b : Backoff) : IntoIter := IntoIter.new b

/-- Model of the `IntoIterator` impl for owned `Backoff`: moves. -/
def Backoff.into_iter_owned (b : Backoff) : IntoIter := IntoIter.new b

/-- Model of `<IntoIter as Iterator>::next` from src/into_iter.rs.
Returns the yielded item (`none` = Rust `None` i.e. exhausted,
`some none` = Rust `Some(None)` i.e. the stop signal, `some (some d)` =
Rust `Some(Some(d))` i.e. a wait), the updated iterator and the updated
tape position; `.error` models a panic.  The two panic sources are
faithful to the dependencies: `fastrand::Rng::u32` panics on an empty
range (here `0..jitter_factor * 2` with `jitter_factor = 0`), and
`Ord::clamp` panics when `min > max`. -/
def IntoIter.next (it : IntoIter) (tape : Nat → Nat) (pos : Nat) :
    Except String (Option (Option Nat) × IntoIter × Nat) :=
  let retries := u32SatAdd it.inner.max_attempts 1
  if it.retry_count = retries then .ok (none, it, pos)
  else
    let it2 : IntoIter := { it with retry_count := u32SatAdd it.retry_count 1 }
    if it2.retry_count = retries then .ok (some none, it2, pos)
    else
      let exponent := u32SatPow it2.inner.factor it2.retry_count
      let duration := durSatMul it2.inner.min exponent
      let jf := jitterFactor it2.inner.jitter
      if jf * 2 = 0 then .error "empty range"
      else
        let random := tape pos % (jf * 2)
        let d1 := durSatMul duration 100
        let d2 :=
          if random < jf then durSatSub d1 (durSatMul d1 random / 100)
          else durSatAdd d1 (durSatMul d1 (random / 2) / 100)
        let d3 := d2 / 100
        if it2.inner.max < it2.inner.min then .error "clamp"
        else
          .ok (some (some (Nat.min (Nat.max d3 it2.inner.min) it2.inner.max)),
               it2, pos + 1)

instance {ε α : Type} [DecidableEq ε] [DecidableEq α] : DecidableEq (Except ε α) := fun
  | .error a, .error b =>
    if h : a = b then .isTrue (by rw [h]) else .isFalse (by simp [h])
  | .error _, .ok _ => .isFalse (by simp)
  | .ok _, .error _ => .isFalse (by simp)
  | .ok a, .ok b =>
    if h : a = b then .isTrue (by rw [h]) else .isFalse (by simp [h])

/-- Drain `n` successive calls to `next`, collecting the yielded items;
a panic at any step aborts the whole run. -/
def drainN : Nat → IntoIter → (Nat → Nat) → Nat →
    Except String (List (Option (Option Nat)))
  | 0, _, _, _ => .ok []
  | n + 1, it, tape, pos =>
    match IntoIter.next it tape pos with
    | .error e => .error e
    | .ok (out, it2, pos2) => (drainN n it2 tape pos2).map (fun l => out :: l)

/-- One call of the `set_jitter` mutation as a state transformer: a panic
aborts the call and leaves the configuration unchanged. -/
def applyJitterCall (b : Backoff) (v : Rat) : Backoff :=
  match b.set_jitter v with
  | .ok b2 => b2
  | .error _ => b

/-- One mutation of a `Backoff` through any of its five setters. -/
inductive SetterCall where
  | callMin (v : Nat)
  | callMax (v : Nat)
  | callMaxAttempts (v : Nat)
  | callJitter (v : Rat)
  | callFactor (v : Nat)

/-- Apply a setter call to a `Backoff`. -/
def applySetter : SetterCall → Backoff → Backoff
  | .callMin v, b => b.set_min v
  | .callMax v, b => b.set_max v
  | .callMaxAttempts v, b => b.set_max_attempts v
  | .callJitter v, b => applyJitterCall b v
  | .callFactor v, b => b.set_factor v

/-- The program scenario of claim C10: an iterator is created from a
`Backoff`, then the original `Backoff` is mutated through a setter.  The
pair holds the already-created iterator and the mutated configuration. -/
def iterThenMutate (b : Backoff) (s : SetterCall) : IntoIter × Backoff :=
  let it := Backoff.iter b
  let b2 := applySetter s b
  (it, b2)

/-- Claim C1: the claim states that an attempt budget of `N ≥ 1` yields
exactly `N` values (`N - 1` waits then the stop signal).  The code instead
yields `N + 1` values (`N` waits then the stop signal): with the
configuration of the repository's own test `it_correctly_handles_max_attempts`
(budget 3, min 10ms, max 20ms) a full drain emits three waits and a stop —
four values — before going exhausted, while that test asserts three values
with two sleeps.  The budget-0 clause and the exhausted-forever clause do
hold (second and trailing conjuncts). -/
theorem budget_three_emits_four_values_not_three :
    drainN 6 (IntoIter.new (Backoff.new 3 (durFromMillis 10)
      (some (durFromMillis 20)))) (fun _ => 0) 0 =
      .ok [some (some (durFromMillis 20)), some (some (durFromMillis 20)),
           some (some (durFromMillis 20)), some none, none, none] ∧
    drainN 3 (IntoIter.new (Backoff.new 0 (durFromMillis 10) none))
      (fun _ => 0) 0 = .ok [some none, none, none] := by
  constructor
  · decide
  · decide

/-- Claim C2: the claim states that with zero jitter the first wait equals
`min_duration` and the i-th wait is `min * factor^i`, e.g. budget 4,
min 1s, factor 2, jitter 0 gives 1s, 2s, 4s, stop.  On the code, setting
the jitter to 0 makes the very first productive call panic (the random
range `0..0` is empty), and even with the panic aside the exponent uses
the already-incremented counter, so the first wait is `min * factor`, not
`min`: with the default jitter and an all-zero random tape (which makes
the jitter adjustment zero) the same configuration's first wait is 2s. -/
theorem zero_jitter_scenario_panics_and_first_wait_is_doubled :
    Backoff.set_jitter (Backoff.new 4 (durFromSecs 1) none) 0 =
      .ok (applyJitterCall (Backoff.new 4 (durFromSecs 1) none) 0) ∧
    IntoIter.next
      (IntoIter.new (applyJitterCall (Backoff.new 4 (durFromSecs 1) none) 0))
      (fun _ => 0) 0 = .error "empty range" ∧
    IntoIter.next (IntoIter.new (Backoff.new 4 (durFromSecs 1) none))
      (fun _ => 0) 0 =
      .ok (some (some (durFromSecs 2)),
           IntoIter.with_count (Backoff.new 4 (durFromSecs 1) none) 1, 1) := by
  refine ⟨by decide, by decide, by decide⟩

/-- Claim C4: the claim states that for every jitter fraction in `[0, 1]`
no call to `next` ever panics.  On the code, jitter `0` (legal per
`set_jitter`) makes the first productive call panic: `jitter_factor` is
`0` and `fastrand::Rng::u32(0..0)` panics on the empty range.  The first
conjunct evaluates the code on the repository's own `it_handles_no_jitter`
configuration (the default `Backoff` with jitter set to `0`).  The second
conjunct checks the claim's extreme scenario, which does hold under the
default jitter: with budget `u32::MAX` and min `Duration::MAX`, 32
successive calls each return the clamped maximal wait. -/
theorem zero_jitter_first_call_panics_on_default_config :
    Backoff.set_jitter Backoff.default 0 =
      .ok (applyJitterCall Backoff.default 0) ∧
    IntoIter.next (IntoIter.new (applyJitterCall Backoff.default 0))
      (fun _ => 0) 0 = .error "empty range" ∧
    drainN 32 (IntoIter.new (Backoff.new u32MAX durMAX none)) (fun _ => 0) 0 =
      .ok (List.replicate 32 (some (some durMAX))) := by
  refine ⟨by decide, by decide, by decide⟩

/-- Claim C5: the claim states that with jitter fraction exactly `0` the
jitter computation runs without failing and leaves the duration
unmodified.  On the code the computation never completes: the random draw
`rng.u32(0..jitter_factor * 2)` is `rng.u32(0..0)` and `fastrand` panics
on an empty range, so the first call that reaches the jitter step (budget
2, min 5ms: the first call computes a wait) panics instead of returning
the unmodified duration. -/
theorem zero_jitter_draw_panics_instead_of_passing_through :
    Backoff.set_jitter (Backoff.new 2 (durFromMillis 5) none) 0 =
      .ok (applyJitterCall (Backoff.new 2 (durFromMillis 5) none) 0) ∧
    IntoIter.next
      (IntoIter.new (applyJitterCall (Backoff.new 2 (durFromMillis 5) none) 0))
      (fun _ => 0) 0 = .error "empty range" := by
  refine ⟨by decide, by decide⟩

/-- Claim C7: the claim states that under zero jitter and growth factor
at least 1 the produced wait durations are non-decreasing.  On the code,
zero jitter means no wait duration is ever produced: with the
configuration of the repository's own monotonicity test
`it_generates_ascending_sleep_values` (budget 20, min 1s, factor 2,
jitter 0) the very first call panics on the empty random range, so the
test's premise — a drained sequence of waits — is unattainable. -/
theorem ascending_test_config_panics_on_first_call :
    Backoff.set_jitter
      (Backoff.set_factor (Backoff.new 20 (durFromSecs 1) none) 2) 0 =
      .ok (applyJitterCall
        (Backoff.set_factor (Backoff.new 20 (durFromSecs 1) none) 2) 0) ∧
    IntoIter.next
      (IntoIter.new (applyJitterCall
        (Backoff.set_factor (Backoff.new 20 (durFromSecs 1) none) 2) 0))
      (fun _ => 0) 0 = .error "empty range" := by
  refine ⟨by decide, by decide⟩

/-- Claim C3: for every configuration with `min ≤ max`, every tape of
random draws and every call of `next` that yields a wait duration `d`,
the duration lies within `[min, max]` (the final `clamp` makes this a
hard post-condition); the terminal value `some none` carries no duration
by construction. -/
theorem wait_durations_within_bounds (it : IntoIter) (tape : Nat → Nat)
    (pos : Nat) (d : Nat) (it2 : IntoIter) (pos2 : Nat)
    (hminmax : it.inner.min ≤ it.inner.max)
    (h : IntoIter.next it tape pos = .ok (some (some d), it2, pos2)) :
    it.inner.min ≤ d ∧ d ≤ it.inner.max := by
  unfold IntoIter.next at h
  dsimp only at h
  split at h
  · simp at h
  · split at h
    · simp at h
    · split at h
      · simp at h
      · split at h
        · simp at h
        · simp only [Except.ok.injEq, Prod.mk.injEq, Option.some.injEq] at h
          obtain ⟨hd, -, -⟩ := h
          subst hd
          exact ⟨Nat.le_min.mpr ⟨Nat.le_max_right _ _, hminmax⟩,
                 Nat.min_le_right _ _⟩

theorem wait_durations_within_bounds_witness :
    durFromMillis 10 ≤ durFromMillis 20 ∧ durFromMillis 20 ≤ durFromMillis 30 :=
  wait_durations_within_bounds
    (IntoIter.new (Backoff.new 5 (durFromMillis 10) (some (durFromMillis 30))))
    (fun _ => 0) 0 (durFromMillis 20)
    (IntoIter.with_count (Backoff.new 5 (durFromMillis 10)
      (some (durFromMillis 30))) 1) 1
    (by decide) (by decide)

/-- Claim C6: `set_jitter` stores the value and leaves every other field
unchanged when the value lies in `[0, 1]`, and panics — leaving the
configuration unchanged, since the panic precedes the assignment — when
the value is below `0` or above `1`; it never silently clamps. -/
theorem set_jitter_panics_iff_out_of_range (b : Backoff) (v : Rat) :
    ((0 ≤ v ∧ v ≤ 1) → b.set_jitter v = .ok { b with jitter := v }) ∧
    (v < 0 ∨ 1 < v →
      b.set_jitter v = .error "jitter must be between 0 and 1.") := by
  constructor
  · intro h
    unfold Backoff.set_jitter
    rw [if_pos h]
  · intro h
    have hn : ¬(0 ≤ v ∧ v ≤ 1) := by
      rcases h with h | h
      · exact fun hc => absurd hc.1 (not_le.mpr h)
      · exact fun hc => absurd hc.2 (not_le.mpr h)
    unfold Backoff.set_jitter
    rw [if_neg hn]

theorem set_jitter_panics_iff_out_of_range_witness :
    Backoff.set_jitter Backoff.default (mkRat 1 2) =
      .ok { Backoff.default with jitter := mkRat 1 2 } ∧
    Backoff.set_jitter Backoff.default (mkRat 3 2) =
      .error "jitter must be between 0 and 1." :=
  ⟨(set_jitter_panics_iff_out_of_range Backoff.default (mkRat 1 2)).1
      (by decide),
   (set_jitter_panics_iff_out_of_range Backoff.default (mkRat 3 2)).2
      (Or.inr (by decide))⟩

/-- Claim C8: `Backoff::new` with an omitted max stores `Duration::MAX`
and sets the defaults jitter `0.3` and growth factor `2` (and stores the
given budget, min, and an explicit max verbatim); the `Default` impl
yields budget 3, min 100ms, max 10s, jitter `0.3`, factor `2`. -/
theorem new_and_default_apply_documented_defaults (a mn mx : Nat) :
    (Backoff.new a mn none).max = durMAX ∧
    (Backoff.new a mn none).jitter = mkRat 3 10 ∧
    (Backoff.new a mn none).factor = 2 ∧
    (Backoff.new a mn none).max_attempts = a ∧
    (Backoff.new a mn none).min = mn ∧
    (Backoff.new a mn (some mx)).max = mx ∧
    Backoff.default.max_attempts = 3 ∧
    Backoff.default.min = durFromMillis 100 ∧
    Backoff.default.max = durFromSecs 10 ∧
    Backoff.default.jitter = mkRat 3 10 ∧
    Backoff.default.factor = 2 :=
  ⟨rfl, rfl, rfl, rfl, rfl, rfl, rfl, rfl, rfl, rfl, rfl⟩

/-- Claim C9: for every configuration and legal value, each setter stores
exactly the given value — read back unchanged by the corresponding getter
(the projection) — and leaves every other configuration field unchanged;
for the validated jitter setter this holds for every value in `[0, 1]`. -/
theorem setter_getter_roundtrip_and_frame (b : Backoff)
    (vmin vmax vatt vfac : Nat) (vj : Rat) :
    ((b.set_min vmin).min = vmin ∧ (b.set_min vmin).max = b.max ∧
     (b.set_min vmin).max_attempts = b.max_attempts ∧
     (b.set_min vmin).jitter = b.jitter ∧
     (b.set_min vmin).factor = b.factor) ∧
    ((b.set_max vmax).max = vmax ∧ (b.set_max vmax).min = b.min ∧
     (b.set_max vmax).max_attempts = b.max_attempts ∧
     (b.set_max vmax).jitter = b.jitter ∧
     (b.set_max vmax).factor = b.factor) ∧
    ((b.set_max_attempts vatt).max_attempts = vatt ∧
     (b.set_max_attempts vatt).min = b.min ∧
     (b.set_max_attempts vatt).max = b.max ∧
     (b.set_max_attempts vatt).jitter = b.jitter ∧
     (b.set_max_attempts vatt).factor = b.factor) ∧
    ((b.set_factor vfac).factor = vfac ∧ (b.set_factor vfac).min = b.min ∧
     (b.set_factor vfac).max = b.max ∧
     (b.set_factor vfac).max_attempts = b.max_attempts ∧
     (b.set_factor vfac).jitter = b.jitter) ∧
    (0 ≤ vj ∧ vj ≤ 1 → b.set_jitter vj = .ok { b with jitter := vj }) := by
  refine ⟨⟨rfl, rfl, rfl, rfl, rfl⟩, ⟨rfl, rfl, rfl, rfl, rfl⟩,
    ⟨rfl, rfl, rfl, rfl, rfl⟩, ⟨rfl, rfl, rfl, rfl, rfl⟩, ?_⟩
  intro h
  unfold Backoff.set_jitter
  rw [if_pos h]

theorem setter_getter_roundtrip_and_frame_witness :
    (Backoff.default.set_min 7).min = 7 ∧
    Backoff.default.set_jitter (mkRat 1 4) =
      .ok { Backoff.default with jitter := mkRat 1 4 } :=
  ⟨(setter_getter_roundtrip_and_frame Backoff.default 7 8 9 11
      (mkRat 1 4)).1.1,
   (setter_getter_roundtrip_and_frame Backoff.default 7 8 9 11
      (mkRat 1 4)).2.2.2.2 (by decide)⟩

/-- Claim C10: an iterator receives its own copy of the configuration at
creation time (all three creation paths clone or move the `Backoff` into
the iterator), so whatever the already-created iterator produces is the
same as if a subsequent setter call on the original `Backoff` had not
happened. -/
theorem iterator_unaffected_by_later_mutation (b : Backoff) (s : SetterCall)
    (n pos : Nat) (tape : Nat → Nat) :
    drainN n (iterThenMutate b s).1 tape pos =
      drainN n (Backoff.iter b) tape pos ∧
    Backoff.iter b = IntoIter.new b ∧
    Backoff.into_iter_ref b = IntoIter.new b ∧
    Backoff.into_iter_owned b = IntoIter.new b :=
  ⟨rfl, rfl, rfl, rfl⟩
